import Mathlib

/-!
Verification of the Integration.Scripts.Profiler generator (Go) against its
natural-language specification.  The Go program is shallowly embedded:

* `goReplaceAux` / `goReplaceAll` model `strings.ReplaceAll` (leftmost,
  non-overlapping replacement; for an empty pattern Go inserts the
  replacement before every character and at the end).
* File contents are modelled as lists of lines (`List String`); the
  scanner's newline handling is environmental and not at issue in any claim.
* IO failures (open, scan, create, write) are injected through explicit
  environment records, as are HTTP responses and go-git outcomes.
* File-system paths are modelled as lists of path components, matching
  `filepath.Join` on cleaned components.
-/

/-- Model of Go `strings.Replace` with a nonempty pattern `old`: scan left to
right; on a match emit `new` and skip `old.length` characters (the matched
character plus `old.length - 1` further ones, tracked by the skip counter);
otherwise emit the character unchanged. -/
def goReplaceAux (old new : List Char) : Nat → List Char → List Char
  | _, [] => []
  | Nat.succ k, _ :: rest => goReplaceAux old new k rest
  | 0, c :: rest =>
    if old.isPrefixOf (c :: rest) then
      new ++ goReplaceAux old new (old.length - 1) rest
    else
      c :: goReplaceAux old new 0 rest

/-- Model of Go `strings.ReplaceAll(s, old, new)`.  When `old` is empty Go
inserts `new` before every character of `s` and once more at the end. -/
def goReplaceAll (s old new : String) : String :=
  match old.data with
  | [] => ⟨new.data ++ s.data.foldr (fun c acc => c :: (new.data ++ acc)) []⟩
  | _ :: _ => ⟨goReplaceAux old.data new.data 0 s.data⟩

/-- Model of Go `strings.HasPrefix` (what `line` beginning with `#` is
tested with). -/
def goHasPrefix (s pre : String) : Bool :=
  pre.data.isPrefixOf s.data

/-- One line of `ModifyFileContents` (part_000 lines 1142-1155): a line
beginning with `#` is passed through; otherwise the token is
substring-replaced and the line is kept when the result is nonempty or the
line was empty to begin with. -/
def processLine (oldText newText line : String) : Option String :=
  if goHasPrefix line "#" then
    some line
  else
    let modifiedLine := goReplaceAll line oldText newText
    if modifiedLine ≠ "" ∨ line = "" then some modifiedLine else none

/-- The pure line-processing core of `ModifyFileContents`: the lines written
to the string builder, in order. -/
def modifyLines (oldText newText : String) (lines : List String) : List String :=
  lines.filterMap (processLine oldText newText)

/-- Injected IO outcomes for one run of `ModifyFileContents`: `openErr` for
`os.Open`, `scanErr` for `scanner.Err()`, `createErr` for `os.Create`,
`writeErr` for `WriteString`; `partialContent` is whatever a failed write
left behind after truncation. -/
structure FileIOEnv where
  openErr : Option Nat
  scanErr : Option Nat
  createErr : Option Nat
  writeErr : Option Nat
  partialContent : List String

/-- Model of `ModifyFileContents` (part_000 lines 1128-1173).  Returns the
Go function's error result together with the file's contents afterwards.
`os.Create` (which truncates) runs only after the whole input was scanned
without error; a failed `os.Create` leaves the file untouched. -/
def ModifyFileContents (env : FileIOEnv) (oldText newText : String)
    (orig : List String) : Option Nat × List String :=
  match env.openErr with
  | some e => (some e, orig)
  | none =>
    match env.scanErr with
    | some e => (some e, orig)
    | none =>
      match env.createErr with
      | some e => (some e, orig)
      | none =>
        match env.writeErr with
        | some e => (some e, env.partialContent)
        | none => (none, modifyLines oldText newText orig)

/-- The spec's description of per-line processing, stated in the spec's own
words: comment lines pass through unmodified; other lines are
substring-replaced; a line that becomes empty after substitution and was not
already empty is dropped; all others are kept. -/
def specLineBehavior (oldText newText line : String) : Option String :=
  if goHasPrefix line "#" then
    some line
  else
    let modifiedLine := goReplaceAll line oldText newText
    if modifiedLine = "" ∧ line ≠ "" then none else some modifiedLine

/-- The per-cluster copy-task skip condition of part_000 line 924, with Go's
operator precedence (`&&` binds tighter than `||`) preserved exactly. -/
def skipCopyTask (schedulerSelected : String) (i : Nat) : Bool :=
  schedulerSelected == "awsbatch" || schedulerSelected == "kubernetes" ||
    schedulerSelected == "htcondor" && (i == 0 || i == 5)

/-- The entries of the Go map `originalContent` (part_000 lines 1008-1016) in
the order of the source literal.  The Go `map` itself has no defined
iteration order; any permutation of this list is a possible application
order of the token-rewrite loop at lines 1029-1048. -/
def originalContent (numberOfWorkers clusterMatlabRoot clusterHostname
    clusterName profileName : String) : List (String × String) :=
  [("NumWorkers = 100000", "NumWorkers = " ++ numberOfWorkers),
   ("ClusterMatlabRoot = ", "ClusterMatlabRoot = " ++ clusterMatlabRoot),
   ("ClusterHost =", "ClusterHost = " ++ clusterHostname),
   ("cluster_name", clusterName),
   ("profile_name", profileName),
   ("QueueName = ", ""),
   ("Partition = ", "")]

/-- Applying the token loop of part_000 lines 1029-1048 in a given iteration
order: each `ModifyFileContents` call rewrites the file produced by the
previous one (successful-IO path). -/
def applyTokens (order : List (String × String)) (lines : List String) :
    List String :=
  order.foldl (fun acc p => modifyLines p.1 p.2 acc) lines

/-- The four config variants shipped in `Utilities/conf-files`
(part_000 lines 999-1004). -/
def allConfFiles : List String :=
  ["hpcDesktop.conf", "hpcCluster.conf", "hpcRemoteDesktop.conf",
   "hpcRemoteCluster.conf"]

/-- The config files deleted by the prune steps of part_000 lines 970-997:
both remote configs when remote configs were not requested, then the
desktop (resp. cluster) config when only cluster (resp. desktop) submission
was selected. -/
def prunedConfFiles (submissionType : String)
    (includeRemoteConfigFiles : Bool) : List String :=
  (if includeRemoteConfigFiles then []
   else ["hpcRemoteCluster.conf", "hpcRemoteDesktop.conf"]) ++
  (if submissionType = "cluster" then ["hpcDesktop.conf"]
   else if submissionType = "desktop" then ["hpcCluster.conf"] else [])

/-- The config files still present after pruning. -/
def keptConfFiles (submissionType : String)
    (includeRemoteConfigFiles : Bool) : List String :=
  allConfFiles.filter
    (fun f => f ∉ prunedConfFiles submissionType includeRemoteConfigFiles)

/-- The required set as the spec derives it (claim C2's words): hpcDesktop
for desktop/both, hpcCluster for cluster/both, and each remote config only
when remote configs were requested AND its submission type applies. -/
def requiredConfFilesSpec (submissionType : String)
    (includeRemoteConfigFiles : Bool) : List String :=
  (if submissionType = "desktop" ∨ submissionType = "both"
   then ["hpcDesktop.conf"] else []) ++
  (if submissionType = "cluster" ∨ submissionType = "both"
   then ["hpcCluster.conf"] else []) ++
  (if includeRemoteConfigFiles ∧
      (submissionType = "desktop" ∨ submissionType = "both")
   then ["hpcRemoteDesktop.conf"] else []) ++
  (if includeRemoteConfigFiles ∧
      (submissionType = "cluster" ∨ submissionType = "both")
   then ["hpcRemoteCluster.conf"] else [])

/-- What the code actually keeps, derived from the prune logic: the remote
configs depend only on the include-remote flag, never on the submission
type. -/
def requiredConfFilesAmended (submissionType : String)
    (includeRemoteConfigFiles : Bool) : List String :=
  (if submissionType = "desktop" ∨ submissionType = "both"
   then ["hpcDesktop.conf"] else []) ++
  (if submissionType = "cluster" ∨ submissionType = "both"
   then ["hpcCluster.conf"] else []) ++
  (if includeRemoteConfigFiles
   then ["hpcRemoteDesktop.conf", "hpcRemoteCluster.conf"] else [])

/-- `matlabPath` of part_000 line 874, as path components relative to
`tmpOrganizationContactPath`. -/
def matlabPathC (sched rel : String) : List String :=
  ["scripts", sched, rel, "matlab"]

/-- Destination of per-cluster copy-task slot `i` (the `tasks` literal of
part_000 lines 908-919), as components relative to
`tmpOrganizationContactPath`.  Slots 5-8 are directory copies whose contents
are merged into `matlabPath` (`copyDirectory` copies the source's entries
into the destination directory); slot 9 copies the plugin directory's
entries into `IntegrationScripts/<clusterName>`. -/
def copySlotDest (sched rel clusterName : String) : Nat → List String
  | 0 => ["scripts", sched, rel, "bin"]
  | 1 => matlabPathC sched rel ++ ["+pctDebug", "ClientJavaLogging.p"]
  | 2 => matlabPathC sched rel ++ ["+pctDebug", "ClientJavaMessageHandler.p"]
  | 3 => matlabPathC sched rel ++ ["+pctDebug", "Finalize.p"]
  | 4 => matlabPathC sched rel ++ ["+pctDebug", "Init.p"]
  | 5 => matlabPathC sched rel
  | 6 => matlabPathC sched rel
  | 7 => matlabPathC sched rel
  | 8 => matlabPathC sched rel
  | _ => matlabPathC sched rel ++ ["IntegrationScripts", clusterName]

/-- The per-cluster tree right after the copy loop of part_000 lines
921-943: the destination of every slot the skip condition lets through,
plus, when the plugin slot ran, the plugin directory's entries (among them
`discover`).  The entries of the other copied directories are irrelevant to
the claims and omitted. -/
def treeAfterCopies (sched rel clusterName : String)
    (pluginFiles : List String) : List (List String) :=
  ((List.range 10).filter (fun i => !skipCopyTask sched i)).map
      (copySlotDest sched rel clusterName) ++
    (if !skipCopyTask sched 9 then
      pluginFiles.map (fun f =>
        matlabPathC sched rel ++ ["IntegrationScripts", clusterName, f])
     else [])

/-- The unconditional deletion list of part_000 lines 946-951: `mdcs.rc`,
`licenseCheck.m`, `parseGenericTemplateFile.m` and the cluster's `discover`
file, removed for every scheduler. -/
def filesToDelete (sched rel clusterName : String) : List (List String) :=
  [matlabPathC sched rel ++ ["mdcs.rc"],
   matlabPathC sched rel ++ ["licenseCheck.m"],
   matlabPathC sched rel ++ ["parseGenericTemplateFile.m"],
   matlabPathC sched rel ++ ["IntegrationScripts", clusterName, "discover"]]

/-- The per-cluster tree after the deletion loop of part_000 lines 953-959
(`deleteFileOrFolder` removes a path together with everything below it). -/
def treeAfterDeletes (sched rel clusterName : String)
    (pluginFiles : List String) : List (List String) :=
  (treeAfterCopies sched rel clusterName pluginFiles).filter
    (fun p => !(filesToDelete sched rel clusterName).any
      (fun d => d.isPrefixOf p))

/-- The scheduler helper-bin directory `scripts/<sched>/<rel>/bin`
(copy-task slot 0). -/
def helperBinPath (sched rel : String) : List String :=
  ["scripts", sched, rel, "bin"]

/-- The per-cluster `discover` file inside the copied plugin directory. -/
def discoverPath (sched rel clusterName : String) : List String :=
  matlabPathC sched rel ++ ["IntegrationScripts", clusterName, "discover"]

/-- go-git errors as the program distinguishes them: the sentinel
`git.NoErrAlreadyUpToDate` versus any other failure. -/
inductive GitErr where
  | noErrAlreadyUpToDate : GitErr
  | other : Nat → GitErr
deriving DecidableEq

/-- Injected go-git outcomes for one run of `remoteCommitAndPush` /
`publishMainBranch`: `openErr` for `git.PlainOpen`, `remoteExists` for
whether `r.Remote("origin")` succeeds, `createRemoteErr` for
`r.CreateRemote`, `worktreeErr`, `addErr`, `statusErr` for the worktree
calls, `isClean` for `status.IsClean()`, `commitErr` for `w.Commit`, and
`pushErr` for the error value `r.Push` returns (go-git reports an
up-to-date push as the error value `NoErrAlreadyUpToDate`). -/
structure GitEnv where
  openErr : Option GitErr
  remoteExists : Bool
  createRemoteErr : Option GitErr
  worktreeErr : Option GitErr
  addErr : Option GitErr
  statusErr : Option GitErr
  isClean : Bool
  commitErr : Option GitErr
  pushErr : Option GitErr

/-- Result of a commit-and-push run: the returned error, whether a commit
was created and whether a push was attempted. -/
structure GitResult where
  err : Option GitErr
  committed : Bool
  pushed : Bool
deriving DecidableEq

/-- Model of `remoteCommitAndPush` (part_000 lines 1564-1643): open the
repo, create `origin` if missing, stage everything, return success on a
clean worktree, otherwise commit and push; every non-nil error value from
`r.Push` — `NoErrAlreadyUpToDate` included — is returned as the function's
error. -/
def remoteCommitAndPush (env : GitEnv) : GitResult :=
  match env.openErr with
  | some e => ⟨some e, false, false⟩
  | none =>
    match (if env.remoteExists then none else env.createRemoteErr) with
    | some e => ⟨some e, false, false⟩
    | none =>
      match env.worktreeErr with
      | some e => ⟨some e, false, false⟩
      | none =>
        match env.addErr with
        | some e => ⟨some e, false, false⟩
        | none =>
          match env.statusErr with
          | some e => ⟨some e, false, false⟩
          | none =>
            if env.isClean then ⟨none, false, false⟩
            else
              match env.commitErr with
              | some e => ⟨some e, false, false⟩
              | none =>
                match env.pushErr with
                | some e => ⟨some e, true, true⟩
                | none => ⟨none, true, true⟩

/-- Model of `publishMainBranch` (part_000 lines 1645-1698): open the repo,
ensure `origin`, push `main`; a push returning `NoErrAlreadyUpToDate` is
explicitly treated as success. -/
def publishMainBranch (env : GitEnv) : Option GitErr :=
  match env.openErr with
  | some e => some e
  | none =>
    match (if env.remoteExists then none else env.createRemoteErr) with
    | some e => some e
    | none =>
      match env.pushErr with
      | some GitErr.noErrAlreadyUpToDate => none
      | some e => some e
      | none => none

/-- Errors `CheckIfGitLabProjectExistsAndFetch` can return, tagged by the
call that produced them. -/
inductive APIErr where
  | reqFailed : Nat → APIErr
  | transport : Nat → APIErr
  | cloneFailed : Nat → APIErr
  | openFailed : Nat → APIErr
  | readBodyFailed : Nat → APIErr
  | statusErr : Nat → String → APIErr
deriving DecidableEq

/-- Injected outcomes for one run of `CheckIfGitLabProjectExistsAndFetch`:
`reqErr` for `http.NewRequest`, `doErr` for `client.Do`, `status` for the
HTTP response status, `localExists` for whether the local repo path exists,
`cloneErr` for `git.PlainClone`, `openLocalErr` for `git.PlainOpen`,
`readBodyErr` for `io.ReadAll`, `body` for the response body. -/
structure APIEnv where
  reqErr : Option Nat
  doErr : Option Nat
  status : Nat
  localExists : Bool
  cloneErr : Option Nat
  openLocalErr : Option Nat
  readBodyErr : Option Nat
  body : String

/-- Model of `CheckIfGitLabProjectExistsAndFetch` (part_000 lines
1355-1441): 404 means absent without error; 200 means the project exists,
after which the local path is cloned (when missing) or opened and fetched
(when present) — a clone/open failure is returned alongside `exists = true`;
any other status is turned into an error.  `fetchUpdates` either exits the
process or returns nil, so it contributes no returned error. -/
def CheckIfGitLabProjectExistsAndFetch (env : APIEnv) :
    Bool × Option APIErr :=
  match env.reqErr with
  | some e => (false, some (APIErr.reqFailed e))
  | none =>
    match env.doErr with
    | some e => (false, some (APIErr.transport e))
    | none =>
      if env.status = 404 then (false, none)
      else if env.status = 200 then
        if !env.localExists then
          match env.cloneErr with
          | some e => (true, some (APIErr.cloneFailed e))
          | none => (true, none)
        else
          match env.openLocalErr with
          | some e => (true, some (APIErr.openFailed e))
          | none => (true, none)
      else
        match env.readBodyErr with
        | some e => (false, some (APIErr.readBodyFailed e))
        | none => (false, some (APIErr.statusErr env.status env.body))

/-- `d` names `p` itself or an entry below it (paths as component lists). -/
def pathIsUnder (d p : List String) : Bool := d.isPrefixOf p

/-- Model of Go `os.RemoveAll(p)` over a file system given as a list of
existing entries, per its documented contract: it removes `p` and
everything it contains and returns nil when the path does not exist;
`locked` are the entries whose removal fails (e.g. permission errors), in
which case the tree is reported unchanged together with the error. -/
def removeAll (locked fs : List (List String)) (p : List String) :
    Option Nat × List (List String) :=
  if (fs.filter (fun q => pathIsUnder p q)).any (fun q => locked.contains q)
  then (some 13, fs)
  else (none, fs.filter (fun q => !pathIsUnder p q))

/-- Model of `deleteFileOrFolder` (part_000 lines 1280-1286): it returns
exactly the error of `os.RemoveAll`. -/
def deleteFileOrFolder (locked fs : List (List String)) (p : List String) :
    Option Nat × List (List String) :=
  removeAll locked fs p

/-- The rename target of part_000 line 1050:
`strings.ReplaceAll(fileToModifyFullPath, "hpc", clusterName)` — the
replacement runs over the whole path, not just the file's base name. -/
def modifiedFileName (fileToModifyFullPath clusterName : String) : String :=
  goReplaceAll fileToModifyFullPath "hpc" clusterName


/-- Helper: a leftmost replacement scan passes over a region in which the
pattern matches at no position. -/
theorem goReplaceAux_append_of_no_match (old new dl nl : List Char)
    (h : ∀ n, n < dl.length → old.isPrefixOf ((dl ++ nl).drop n) = false) :
    goReplaceAux old new 0 (dl ++ nl) = dl ++ goReplaceAux old new 0 nl := by
  induction dl with
  | nil => simp
  | cons c dl ih =>
    have h0 : old.isPrefixOf (c :: (dl ++ nl)) = false := by
      have := h 0 (by simp)
      simpa using this
    have hrest : ∀ n, n < dl.length →
        old.isPrefixOf ((dl ++ nl).drop n) = false := by
      intro n hn
      have := h (n + 1) (by simp; omega)
      simpa using this
    simp [goReplaceAux, h0, ih hrest]

/-- C1: the claim says that for awsbatch, kubernetes and htcondor exactly
the copy-task slots 0 and 5 are skipped.  Evaluating the code's skip
condition shows that for awsbatch and kubernetes every slot is skipped
(Go's `&&` binds tighter than `||`, so the `(i == 0 || i == 5)` guard
applies only to htcondor), while htcondor and the other schedulers behave
as claimed. -/
theorem c1_copy_task_skip_eval :
    skipCopyTask "awsbatch" 1 = true ∧ skipCopyTask "awsbatch" 9 = true ∧
    skipCopyTask "kubernetes" 8 = true ∧
    skipCopyTask "htcondor" 0 = true ∧ skipCopyTask "htcondor" 5 = true ∧
    skipCopyTask "htcondor" 1 = false ∧
    skipCopyTask "slurm" 0 = false ∧ skipCopyTask "pbs" 5 = false := by
  decide

/-- C2 counterexample: with submission type `cluster` and remote configs
requested, the code keeps `hpcRemoteDesktop.conf` although the claim's
required set excludes it. -/
theorem c2_counterexample :
    keptConfFiles "cluster" true ≠ requiredConfFilesSpec "cluster" true ∧
    "hpcRemoteDesktop.conf" ∈ keptConfFiles "cluster" true ∧
    "hpcRemoteDesktop.conf" ∉ requiredConfFilesSpec "cluster" true := by
  decide

/-- C2 (amended): after pruning, `hpcDesktop.conf` is kept iff the
submission type is desktop or both, `hpcCluster.conf` iff cluster or both,
and the two remote configs are kept iff remote configs were requested,
independent of the submission type. -/
theorem c2_kept_configs_amended (submissionType : String)
    (includeRemoteConfigFiles : Bool)
    (h : submissionType = "desktop" ∨ submissionType = "cluster" ∨
      submissionType = "both") :
    keptConfFiles submissionType includeRemoteConfigFiles =
      requiredConfFilesAmended submissionType includeRemoteConfigFiles := by
  rcases h with h | h | h <;> subst h <;>
    cases includeRemoteConfigFiles <;> decide

/-- C2 witness: the amended statement evaluated at a concrete input. -/
theorem c2_kept_configs_amended_witness :
    keptConfFiles "cluster" true = requiredConfFilesAmended "cluster" true :=
  c2_kept_configs_amended "cluster" true (Or.inr (Or.inl rfl))

/-- C3 counterexample: for slurm (not in the excluded set) the claim
asserts the tree contains a `discover` file, but the unconditional deletion
of part_000 line 950 removes it; the helper-bin directory is present as
claimed. -/
theorem c3_counterexample :
    discoverPath "slurm" "R2024a" "c1" ∉
      treeAfterDeletes "slurm" "R2024a" "c1" ["discover"] ∧
    helperBinPath "slurm" "R2024a" ∈
      treeAfterDeletes "slurm" "R2024a" "c1" ["discover"] := by
  decide

/-- C3 (amended): for every scheduler outside {awsbatch, kubernetes,
htcondor} the generated per-cluster tree contains the helper-bin directory,
for every scheduler inside the set it does not; the `discover` file is
deleted for every scheduler, so no final tree contains it. -/
theorem c3_tree_contents_amended (sched rel clusterName : String)
    (pluginFiles : List String) :
    (helperBinPath sched rel ∈
        treeAfterDeletes sched rel clusterName pluginFiles ↔
      skipCopyTask sched 0 = false) ∧
    discoverPath sched rel clusterName ∉
      treeAfterDeletes sched rel clusterName pluginFiles ∧
    (skipCopyTask sched 0 = false ↔
      ¬(sched = "awsbatch" ∨ sched = "kubernetes" ∨ sched = "htcondor")) := by
  have hr : List.range 10 = [0, 1, 2, 3, 4, 5, 6, 7, 8, 9] := rfl
  cases ha : sched == "awsbatch" <;> cases hk : sched == "kubernetes" <;>
    cases hh : sched == "htcondor" <;>
    simp_all [skipCopyTask, treeAfterDeletes, treeAfterCopies, filesToDelete,
      copySlotDest, matlabPathC, helperBinPath, discoverPath, hr,
      List.isPrefixOf]

/-- C4 counterexample: the rename target is computed with
`strings.ReplaceAll` over the whole path, so an occurrence of `hpc` in a
directory component (here the organization folder `hpcorg`) is replaced
too, while the claim predicts only the file name's `hpc` prefix changes. -/
theorem c4_counterexample :
    modifiedFileName "/tmp/hpcorg/scripts/slurm/R2024a/matlab/hpcDesktop.conf"
        "abc" =
      "/tmp/abcorg/scripts/slurm/R2024a/matlab/abcDesktop.conf" ∧
    modifiedFileName "/tmp/hpcorg/scripts/slurm/R2024a/matlab/hpcDesktop.conf"
        "abc" ≠
      "/tmp/hpcorg/scripts/slurm/R2024a/matlab/abcDesktop.conf" := by
  decide

/-- C4 (amended): the rename replaces every occurrence of `hpc` in the full
path with the cluster name; only when the pattern matches at no position
inside the directory part does this coincide with rewriting the file's own
name. -/
theorem c4_rename_replaces_all_amended (dl nl : List Char)
    (clusterName : String)
    (h : ∀ n, n < dl.length →
      ("hpc".data).isPrefixOf ((dl ++ nl).drop n) = false) :
    modifiedFileName ⟨dl ++ nl⟩ clusterName =
      ⟨dl ++ (modifiedFileName ⟨nl⟩ clusterName).data⟩ := by
  have hd : "hpc".data = ['h', 'p', 'c'] := rfl
  simp only [modifiedFileName, goReplaceAll, hd]
  exact congrArg String.mk
    (goReplaceAux_append_of_no_match ['h', 'p', 'c'] clusterName.data dl nl
      (by simpa [hd] using h))

/-- C4 witness: the amended statement at a concrete hpc-free directory. -/
theorem c4_rename_replaces_all_amended_witness :
    modifiedFileName ⟨"/tmp/org/matlab/".data ++ "hpcDesktop.conf".data⟩
        "abc" =
      ⟨"/tmp/org/matlab/".data ++
        (modifiedFileName ⟨"hpcDesktop.conf".data⟩ "abc").data⟩ :=
  c4_rename_replaces_all_amended "/tmp/org/matlab/".data
    "hpcDesktop.conf".data "abc" (by decide)

/-- C5: the token loop iterates a Go `map`, whose iteration order is
randomized between runs.  The two lists below are permutations of the same
token map (concrete inputs: 64 workers, MATLAB root `/opt/cluster_name/matlab`,
host `h1`, cluster `mycluster`, profile `myprofile`), yet applied to the
same file they produce different contents, because `cluster_name` occurs in
the replacement text of `ClusterMatlabRoot = `.  Two runs of the rewrite
step are therefore not guaranteed byte-identical output. -/
theorem c5_token_order_changes_output :
    List.Perm
      (originalContent "64" "/opt/cluster_name/matlab" "h1" "mycluster"
        "myprofile")
      [("cluster_name", "mycluster"),
       ("NumWorkers = 100000", "NumWorkers = 64"),
       ("ClusterMatlabRoot = ", "ClusterMatlabRoot = /opt/cluster_name/matlab"),
       ("ClusterHost =", "ClusterHost = h1"),
       ("profile_name", "myprofile"),
       ("QueueName = ", ""),
       ("Partition = ", "")] ∧
    applyTokens
        (originalContent "64" "/opt/cluster_name/matlab" "h1" "mycluster"
          "myprofile")
        ["ClusterMatlabRoot = "] ≠
      applyTokens
        [("cluster_name", "mycluster"),
         ("NumWorkers = 100000", "NumWorkers = 64"),
         ("ClusterMatlabRoot = ",
          "ClusterMatlabRoot = /opt/cluster_name/matlab"),
         ("ClusterHost =", "ClusterHost = h1"),
         ("profile_name", "myprofile"),
         ("QueueName = ", ""),
         ("Partition = ", "")]
        ["ClusterMatlabRoot = "] := by
  decide

/-- C6: on the successful-IO path, `ModifyFileContents` processes the file
exactly per line as the spec says: comment lines (leading `#`) pass through
unmodified, every other line has the token substring-replaced, a line that
becomes empty after substitution and was not empty before is dropped, and
every other line — originally blank lines included — is kept. -/
theorem c6_line_processing (oldText newText : String) (lines : List String) :
    ModifyFileContents ⟨none, none, none, none, []⟩ oldText newText lines =
      (none, lines.filterMap (specLineBehavior oldText newText)) := by
  have h : processLine oldText newText = specLineBehavior oldText newText := by
    funext line
    unfold processLine specLineBehavior
    by_cases hc : goHasPrefix line "#" = true
    · simp [hc]
    · by_cases h1 : goReplaceAll line oldText newText = "" <;>
        by_cases h2 : line = "" <;> simp [hc, h1, h2]
  simp [ModifyFileContents, modifyLines, h]

/-- C7: with the remote repository already existing and the worktree clean
after staging, `remoteCommitAndPush` returns success without committing or
pushing (second conjunct, as claimed); but a push whose result is go-git's
`NoErrAlreadyUpToDate` is returned as the function's error (first
conjunct), contradicting the claim — `publishMainBranch` treats the same
outcome as success (third conjunct). -/
theorem c7_already_up_to_date_surfaced_as_error :
    remoteCommitAndPush
        ⟨none, true, none, none, none, none, false, none,
          some GitErr.noErrAlreadyUpToDate⟩ =
      ⟨some GitErr.noErrAlreadyUpToDate, true, true⟩ ∧
    remoteCommitAndPush ⟨none, true, none, none, none, none, true, none,
        none⟩ =
      ⟨none, false, false⟩ ∧
    publishMainBranch
        ⟨none, true, none, none, none, none, false, none,
          some GitErr.noErrAlreadyUpToDate⟩ = none := by
  decide

/-- C8 counterexample: the API responds 200 but the follow-up clone of the
missing local repository fails; the function returns `exists = true`
together with an error, refuting "(exists = true, no error) exactly when
the API responds 200". -/
theorem c8_counterexample :
    CheckIfGitLabProjectExistsAndFetch
        ⟨none, none, 200, false, some 7, none, none, ""⟩ =
      (true, some (APIErr.cloneFailed 7)) ∧
    (CheckIfGitLabProjectExistsAndFetch
        ⟨none, none, 200, false, some 7, none, none, ""⟩).2 ≠ none := by
  decide

/-- C8 (amended): the check returns `(false, no error)` exactly on an HTTP
404 response; it returns `(true, no error)` exactly on an HTTP 200 response
whose follow-up clone (local path absent) or open (local path present)
succeeds — on 200 with a failing clone/open it returns `exists = true`
together with the error; and it returns an error in every remaining case,
other response statuses included. -/
theorem c8_status_mapping_amended (env : APIEnv) :
    (CheckIfGitLabProjectExistsAndFetch env = (false, none) ↔
      env.reqErr = none ∧ env.doErr = none ∧ env.status = 404) ∧
    (CheckIfGitLabProjectExistsAndFetch env = (true, none) ↔
      env.reqErr = none ∧ env.doErr = none ∧ env.status = 200 ∧
        (if env.localExists then env.openLocalErr = none
         else env.cloneErr = none)) ∧
    ((CheckIfGitLabProjectExistsAndFetch env).2 = none ↔
      env.reqErr = none ∧ env.doErr = none ∧
        (env.status = 404 ∨ env.status = 200 ∧
          (if env.localExists then env.openLocalErr = none
           else env.cloneErr = none))) := by
  rcases env with ⟨reqErr, doErr, status, localExists, cloneErr, openLocalErr,
    readBodyErr, body⟩
  cases reqErr <;> cases doErr <;>
    by_cases h404 : status = 404 <;> by_cases h200 : status = 200 <;>
    cases localExists <;> cases cloneErr <;> cases openLocalErr <;>
    cases readBodyErr <;>
    simp_all [CheckIfGitLabProjectExistsAndFetch, Prod.ext_iff]

/-- C9: deleting a path that does not exist (no file-system entry is the
path or lies below it) succeeds — `deleteFileOrFolder` returns no error and
the file system is unchanged, whatever entries a failing removal could
otherwise have tripped on. -/
theorem c9_delete_absent_path_succeeds (locked fs : List (List String))
    (p : List String) (h : ∀ q ∈ fs, pathIsUnder p q = false) :
    deleteFileOrFolder locked fs p = (none, fs) := by
  have h1 : fs.filter (fun q => pathIsUnder p q) = [] :=
    List.filter_eq_nil_iff.mpr (by intro q hq; simp [h q hq])
  have h2 : fs.filter (fun q => !pathIsUnder p q) = fs :=
    List.filter_eq_self.mpr (by intro q hq; simp [h q hq])
  simp [deleteFileOrFolder, removeAll, h1, h2]

/-- C9 witness: deleting an absent path on a concrete file system. -/
theorem c9_delete_absent_path_succeeds_witness :
    deleteFileOrFolder [["a", "b"]] [["a"], ["a", "b"]] ["c"] =
      (none, [["a"], ["a", "b"]]) :=
  c9_delete_absent_path_succeeds [["a", "b"]] [["a"], ["a", "b"]] ["c"]
    (by decide)

/-- C10: if `ModifyFileContents` fails while reading its input — the file
cannot be opened, or the scanner reports an error — the error is returned
and the file's contents are unchanged; the file is truncated and rewritten
only after the entire input was read successfully. -/
theorem c10_read_failure_leaves_file_unchanged (env : FileIOEnv)
    (oldText newText : String) (orig : List String)
    (h : env.openErr.isSome ∨ env.scanErr.isSome) :
    (ModifyFileContents env oldText newText orig).2 = orig ∧
    (ModifyFileContents env oldText newText orig).1.isSome := by
  rcases env with ⟨o, s, c, w, pc⟩
  cases o <;> cases s <;> simp_all [ModifyFileContents]

/-- C10 witness: a failed open at a concrete input. -/
theorem c10_read_failure_leaves_file_unchanged_witness :
    (ModifyFileContents ⟨some 2, none, none, none, []⟩ "a" "b"
        ["x", "y"]).2 = ["x", "y"] ∧
    (ModifyFileContents ⟨some 2, none, none, none, []⟩ "a" "b"
        ["x", "y"]).1.isSome :=
  c10_read_failure_leaves_file_unchanged ⟨some 2, none, none, none, []⟩
    "a" "b" ["x", "y"] (Or.inl rfl)
